import Mathlib

/-!
# Verification of the unwrapped proof-of-contribution pipeline

A shallow embedding of the core of the `unwrapped_proof` Python package:
the scoring engine (`scoring.py`), the differential reward calculation and
conditional persistence in `proof.py`, the contribution ledger
(`services/storage.py`), and the cursor handling and retry classification of
the history collector (`services/spotify.py`).  Scores are modelled as
rationals, timestamps and cursors as integers (milliseconds since epoch).
-/

namespace Unwrapped

/-! ## Scoring engine (`unwrapped_proof/scoring.py`) -/

/-- `PointsBreakdown` dataclass from `scoring.py`. -/
structure PointsBreakdown where
  volume_points : Int
  volume_reason : String
  diversity_points : Int
  diversity_reason : String
  history_points : Int
  history_reason : String
  total_points : Int
  deriving Repr, DecidableEq

/-- `ContributionScorer.calculate_volume_points`: tiered points for total
listening minutes, evaluated from the highest threshold down. -/
def calculate_volume_points (total_minutes : Int) : Int × String :=
  if total_minutes ≥ 5000 then (500, "500 (5000+ minutes)")
  else if total_minutes ≥ 1000 then (150, "150 (1000+ minutes)")
  else if total_minutes ≥ 500 then (50, "50 (500+ minutes)")
  else if total_minutes ≥ 100 then (25, "25 (100+ minutes)")
  else if total_minutes ≥ 30 then (5, "5 (30+ minutes)")
  else (0, "0 (< 30 minutes)")

/-- `ContributionScorer.calculate_diversity_points`: tiered points for the
number of unique artists. -/
def calculate_diversity_points (unique_artists : Int) : Int × String :=
  if unique_artists ≥ 50 then (150, "150 (50+ artists)")
  else if unique_artists ≥ 25 then (75, "75 (25+ artists)")
  else if unique_artists ≥ 10 then (30, "30 (10+ artists)")
  else if unique_artists ≥ 5 then (10, "10 (5+ artists)")
  else if unique_artists ≥ 3 then (5, "5 (3+ artists)")
  else (0, "0 (< 3 artists)")

/-- `ContributionScorer.calculate_history_points`: tiered points for the
length of the activity period in days. -/
def calculate_history_points (days : Int) : Int × String :=
  if days ≥ 180 then (100, "100 (6+ months)")
  else if days ≥ 90 then (50, "50 (3+ months)")
  else if days ≥ 30 then (25, "25 (1+ month)")
  else if days ≥ 7 then (10, "10 (7+ days)")
  else (0, "0 (< 7 days)")

/-- `ListeningStats` dataclass from `models/contribution.py`.  Timestamps are
milliseconds since the epoch. -/
structure ListeningStats where
  total_minutes : Int
  track_count : Nat
  unique_artists : List String
  activity_period_days : Int
  first_listen_date : Option Int
  last_listen_date : Option Int
  deriving Repr, DecidableEq

/-- `ContributionScorer.calculate_score`: combine the three tier tables into a
`PointsBreakdown` whose total is their sum. -/
def calculate_score (stats : ListeningStats) : PointsBreakdown :=
  let vp := calculate_volume_points stats.total_minutes
  let dp := calculate_diversity_points stats.unique_artists.length
  let hp := calculate_history_points stats.activity_period_days
  { volume_points := vp.1, volume_reason := vp.2
    diversity_points := dp.1, diversity_reason := dp.2
    history_points := hp.1, history_reason := hp.2
    total_points := vp.1 + dp.1 + hp.1 }

/-- `ContributionScorer.normalize_score`: convert points to a score in
`[0, 1]`; `0` whenever `max_points ≤ 0`. -/
def normalize_score (points : Int) (max_points : Int) : ℚ :=
  if max_points ≤ 0 then 0
  else min 1 ((points : ℚ) / (max_points : ℚ))

/-! ## Ledger data model (`models/db.py`, `models/contribution.py`) -/

/-- `Track` dataclass from `models/contribution.py` (timestamp in ms). -/
structure Track where
  track_id : String
  artist_id : String
  duration_ms : Int
  listened_at : Int
  deriving Repr, DecidableEq

/-- `ContributionData` dataclass from `models/contribution.py`.  The JSON
`raw_data` export is derived from `stats` and `tracks` and is not repeated. -/
structure ContributionData where
  account_id_hash : String
  stats : ListeningStats
  tracks : List Track
  deriving Repr, DecidableEq

/-- `UserContribution` row from `models/db.py` (the mutable per-account
`ContributionState`).  The JSON `raw_data` column is modelled as the stats
and track list it is serialized from. -/
structure UserContribution where
  account_id_hash : String
  track_count : Nat
  total_minutes : Int
  activity_period_days : Int
  unique_artists : Int
  latest_score : ℚ
  times_rewarded : Nat
  first_contribution_at : Int
  latest_contribution_at : Int
  raw_data : Option (ListeningStats × List Track)
  encrypted_refresh_token : Option String
  last_spotify_fetch_cursor : Option Int
  deriving Repr, DecidableEq

/-- `ContributionProof` row from `models/db.py` (one append-only
`ProofRecord` per rewarded run). -/
structure ContributionProof where
  account_id_hash : String
  file_id : Int
  file_url : String
  job_id : String
  owner_address : String
  score : ℚ
  authenticity : ℚ
  ownership : ℚ
  quality : ℚ
  uniqueness : ℚ
  created_at : Int
  deriving Repr, DecidableEq

/-- The two logical tables of the persistent ledger. -/
structure LedgerState where
  contributions : List UserContribution
  proofs : List ContributionProof
  deriving Repr, DecidableEq

/-- The `ExistingContribution` dataclass exactly as `models/contribution.py`
lines 32-40 declare it: six fields, no fetch cursor. -/
structure ExistingContribution where
  times_rewarded : Nat
  track_count : Nat
  total_minutes : Int
  activity_period_days : Int
  unique_artists : Int
  latest_score : ℚ
  deriving Repr, DecidableEq

/-- The Python exceptions the pipeline raises on its defective paths: the
`TypeError` from constructing `ExistingContribution` with an undeclared
keyword argument (storage.py line 68), and the `ValueError` from unpacking
`get_formatted_history`'s 3-tuple into two targets (proof.py line 186). -/
inductive PyError where
  | typeError
  | valueError
  deriving Repr, DecidableEq

/-- The fields declared by the `ExistingContribution` dataclass in
`models/contribution.py` (lines 32-40), in declaration order. -/
def existingContributionDataclassFields : List String :=
  ["times_rewarded", "track_count", "total_minutes", "activity_period_days",
   "unique_artists", "latest_score"]

/-- The keyword arguments `StorageService.check_existing_contribution` passes
when constructing `ExistingContribution` (storage.py lines 61-69). -/
def checkExistingConstructorKwargs : List String :=
  ["times_rewarded", "track_count", "total_minutes", "activity_period_days",
   "unique_artists", "latest_score", "last_spotify_fetch_cursor"]

/-- A Python `@dataclass` call succeeds only when every keyword argument names
a declared field. -/
def dataclassCallAccepts (fields kwargs : List String) : Bool :=
  kwargs.all fun k => fields.contains k

/-! ## Storage service (`services/storage.py`) -/

/-- The proofs stored for one account: `filter_by(account_id_hash=h)` on the
`contribution_proofs` table. -/
def proofsFor (l : LedgerState) (h : String) : List ContributionProof :=
  l.proofs.filter fun p => p.account_id_hash = h

/-- The account's `UserContribution` row, if any (`filter_by(...).first()`;
the `account_id_hash` column is unique). -/
def contributionFor (l : LedgerState) (h : String) : Option UserContribution :=
  l.contributions.find? fun c => c.account_id_hash = h

/-- `StorageService.check_existing_contribution`: look up the account's
`UserContribution` row; with no row it returns `(False, None)`.  With a row
it computes the cumulative score (sum of all the account's
`ContributionProof.score`) and the count of proofs with strictly positive
score, then constructs `ExistingContribution` passing the keyword arguments
of storage.py lines 61-69 — which the six-field dataclass rejects, so the
call raises `TypeError` (propagated: the surrounding handler catches only
`SQLAlchemyError`). -/
def check_existing_contribution (l : LedgerState) (account_id_hash : String) :
    Except PyError (Bool × Option ExistingContribution) :=
  match contributionFor l account_id_hash with
  | some c =>
      let cumulative_score : ℚ := ((proofsFor l account_id_hash).map (·.score)).sum
      let times_rewarded : Nat :=
        ((proofsFor l account_id_hash).filter fun p => 0 < p.score).length
      if dataclassCallAccepts existingContributionDataclassFields
          checkExistingConstructorKwargs then
        .ok (true, some
          { times_rewarded := times_rewarded
            track_count := c.track_count
            total_minutes := c.total_minutes
            activity_period_days := c.activity_period_days
            unique_artists := c.unique_artists
            latest_score := cumulative_score })
      else .error .typeError
  | none => .ok (false, none)

/-- `ProofResponse` (`models/proof.py`), restricted to the fields the ledger
and the reward path consume. -/
structure ProofResponse where
  valid : Bool
  score : ℚ
  authenticity : ℚ
  ownership : ℚ
  quality : ℚ
  uniqueness : ℚ
  deriving Repr, DecidableEq

/-- Extra per-run inputs `store_contribution` receives from the orchestrator. -/
structure StoreArgs where
  file_id : Int
  file_url : String
  job_id : String
  owner_address : String
  last_successful_fetch_cursor : Option Int
  encrypted_refresh_token : String
  now : Int
  deriving Repr, DecidableEq

/-- The upsert of the `UserContribution` row performed inside
`store_contribution`: update the existing row's stats, score, timestamp,
raw data, token and cursor, or create a fresh row with `times_rewarded = 0`. -/
def upsertContribution (existing : Option UserContribution) (data : ContributionData)
    (proof : ProofResponse) (args : StoreArgs) : UserContribution :=
  match existing with
  | some c =>
      { c with
        track_count := data.stats.track_count
        total_minutes := data.stats.total_minutes
        activity_period_days := data.stats.activity_period_days
        unique_artists := data.stats.unique_artists.length
        latest_score := proof.score
        latest_contribution_at := args.now
        raw_data := some (data.stats, data.tracks)
        encrypted_refresh_token :=
          if args.encrypted_refresh_token ≠ "" then some args.encrypted_refresh_token
          else c.encrypted_refresh_token
        last_spotify_fetch_cursor := args.last_successful_fetch_cursor }
  | none =>
      { account_id_hash := data.account_id_hash
        track_count := data.stats.track_count
        total_minutes := data.stats.total_minutes
        activity_period_days := data.stats.activity_period_days
        unique_artists := data.stats.unique_artists.length
        latest_score := proof.score
        times_rewarded := 0
        first_contribution_at := args.now
        latest_contribution_at := args.now
        raw_data := some (data.stats, data.tracks)
        encrypted_refresh_token :=
          if args.encrypted_refresh_token ≠ "" then some args.encrypted_refresh_token
          else none
        last_spotify_fetch_cursor := args.last_successful_fetch_cursor }

/-- The new `ContributionProof` row appended by `store_contribution`. -/
def newProofRecord (data : ContributionData) (proof : ProofResponse)
    (args : StoreArgs) : ContributionProof :=
  { account_id_hash := data.account_id_hash
    file_id := args.file_id
    file_url := args.file_url
    job_id := args.job_id
    owner_address := args.owner_address
    score := proof.score
    authenticity := proof.authenticity
    ownership := proof.ownership
    quality := proof.quality
    uniqueness := proof.uniqueness
    created_at := args.now }

/-- Replace the account's `UserContribution` row by `c'` (SQLAlchemy mutates
the queried row in place), or `session.add` it when the account had none. -/
def putContribution (l : LedgerState) (h : String) (c' : UserContribution) :
    List UserContribution :=
  match contributionFor l h with
  | some _ => l.contributions.map fun c => if c.account_id_hash = h then c' else c
  | none => l.contributions ++ [c']

/-- The combined ledger effect of a committed `store_contribution` call:
upsert the `UserContribution` row and append the new `ContributionProof`. -/
def applyStore (l : LedgerState) (data : ContributionData) (proof : ProofResponse)
    (args : StoreArgs) : LedgerState :=
  { contributions :=
      putContribution l data.account_id_hash
        (upsertContribution (contributionFor l data.account_id_hash) data proof args)
    proofs := l.proofs ++ [newProofRecord data proof args] }

/-- `StorageService.store_contribution` (success path): writes the atomic
upsert-and-append only when `proof.score > 0`, otherwise leaves the ledger
untouched. -/
def store_contribution (l : LedgerState) (data : ContributionData)
    (proof : ProofResponse) (args : StoreArgs) : LedgerState :=
  if 0 < proof.score then applyStore l data proof args else l

/-! ## Transactional commit (`store_contribution` try/except/rollback) -/

/-- Failure injection points for the database transaction inside
`store_contribution`: the initial query and the final `session.commit()`. -/
inductive StoreFailure where
  | noFailure
  | failOnQuery
  | failOnCommit
  deriving Repr, DecidableEq

/-- A SQLAlchemy session: the committed (visible) ledger and the pending
transaction state.  `commit` publishes pending writes; `rollback` discards
them. -/
structure DbSession where
  committed : LedgerState
  pending : LedgerState
  deriving Repr, DecidableEq

/-- `StorageService.store_contribution` with its transaction semantics: the
upsert and the append go to the pending transaction state and become visible
only through the single `session.commit()`; on `SQLAlchemyError` (at the
query or at the commit) the session is rolled back and the error re-raised.
Returns `(raised, session after the call)`. -/
def store_contribution_tx (s : DbSession) (data : ContributionData)
    (proof : ProofResponse) (args : StoreArgs) (failure : StoreFailure) :
    Bool × DbSession :=
  if 0 < proof.score then
    match failure with
    | .failOnQuery => (true, { committed := s.committed, pending := s.committed })
    | .failOnCommit => (true, { committed := s.committed, pending := s.committed })
    | .noFailure =>
        let pending' := applyStore s.pending data proof args
        (false, { committed := pending', pending := pending' })
  else (false, s)

/-! ## Pipeline orchestration (`proof.py`, `Proof.generate`, stages 1-7) -/

/-- The previously paid cumulative score of an account (the
`previousCumulativeScore` of the spec's reward formula): the sum of all its
stored proof scores, or `0` when the account has no `UserContribution` row. -/
def previousCumulativeScoreOf (l : LedgerState) (h : String) : ℚ :=
  match contributionFor l h with
  | some _ => ((proofsFor l h).map (·.score)).sum
  | none => 0

/-- How many values `get_formatted_history` returns (spotify.py line 572:
`return contribution_data, last_successful_fetch_cursor, insights`). -/
def getFormattedHistoryTupleLength : Nat := 3

/-- How many targets the unpack at proof.py line 186 has
(`fresh_data, last_successful_fetch_cursor = self.spotify.get_formatted_history(...)`). -/
def generateUnpackTargetCount : Nat := 2

/-- A Python tuple unpack `a, b = t` succeeds exactly when the number of
targets equals the tuple's length; otherwise it raises `ValueError`. -/
def tupleUnpackOk (targets values : Nat) : Bool := targets == values

/-- The failed `ProofResponse` that `Proof.generate`'s exception handler
returns (proof.py lines 311-317): `valid=False`, `score=0.0`, the other
sub-scores left at their pydantic defaults of `0.0`. -/
def failedProofResponse : ProofResponse :=
  { valid := false, score := 0, authenticity := 0, ownership := 0,
    quality := 0, uniqueness := 0 }

/-- `Proof.generate`, given the result of this run's fetch (`data` and the
last successful fetch cursor inside `args`).  Stage 1 reads the existing
contribution: when the account has a stored row that read raises `TypeError`
(see `check_existing_contribution`), which the top-level handler turns into
the failed zero-score response with no write.  Stage 2 unpacks
`get_formatted_history`'s 3-tuple into two targets, which always raises
`ValueError`, handled the same way — so stages 3-7 (score the run's full
data view, award the non-negative differential, store only when the award is
positive), transcribed here in the success branch, are unreachable in this
source. -/
def generate (l : LedgerState) (data : ContributionData) (args : StoreArgs)
    (max_points : Int) : ProofResponse × LedgerState :=
  match check_existing_contribution l data.account_id_hash with
  | .error _ => (failedProofResponse, l)
  | .ok checked =>
      if tupleUnpackOk generateUnpackTargetCount getFormattedHistoryTupleLength then
        let has_existing := checked.1
        let previous_cumulative_score : ℚ :=
          match checked.2 with
          | some existing_data => existing_data.latest_score
          | none => 0
        let points_breakdown := calculate_score data.stats
        let current_total_normalized_score :=
          normalize_score points_breakdown.total_points max_points
        let differential_normalized_score :=
          max 0 (current_total_normalized_score - previous_cumulative_score)
        let final_score_to_award := differential_normalized_score
        let proof_response : ProofResponse :=
          { valid := true
            score := final_score_to_award
            authenticity := 1
            ownership := 1
            quality := if 0 < data.stats.track_count then 1 else 1 / 2
            uniqueness := if has_existing then 99 / 100 else 1 }
        let l' :=
          if 0 < final_score_to_award then
            store_contribution l data proof_response args
          else l
        (proof_response, l')
      else (failedProofResponse, l)

/-! ## History collector: cursor resolution (`services/spotify.py`) -/

/-- `MAX_CURSOR_AGE_DAYS = 7`, expressed in milliseconds
(`MAX_CURSOR_AGE_DAYS * 24 * 60 * 60 * 1000`). -/
def maxCursorAgeMs : Int := 7 * 24 * 60 * 60 * 1000

/-- The cursor resolution at the start of `fetch_all_listening_history`:
`cursor_cutoff = now_ms - maxCursorAgeMs`; the stored cursor is used when it
is truthy (`if start_cursor and ...`) and strictly newer than the cutoff,
otherwise fetching restarts from `now_ms` with no resumable cursor recorded.
Returns `(current_before_cursor, last_successful_before_cursor)`. -/
def resolveStartCursor (now_ms : Int) (start_cursor : Option Int) : Int × Option Int :=
  let cursor_cutoff := now_ms - maxCursorAgeMs
  match start_cursor with
  | some c => if c ≠ 0 ∧ cursor_cutoff < c then (c, some c) else (now_ms, none)
  | none => (now_ms, none)

/-! ## History collector: request retry loop (`SpotifyAPI._make_request`) -/

/-- Outcome of one HTTP attempt against the upstream API: a successful JSON
payload, an `HTTPError` with a status code (and, for 429, an optional parsed
`Retry-After` header), or a transport-level `RequestException`. -/
inductive RequestOutcome where
  | success (payload : Nat)
  | httpError (status : Nat) (retry_after : Option Int)
  | requestError
  deriving Repr, DecidableEq

/-- The exception `_make_request` lets escape. -/
inductive RequestFailure where
  | httpFailure (status : Nat)
  | requestFailure
  | timeoutNoPrior
  | retriesExhaustedNoPrior
  deriving Repr, DecidableEq

/-- `RATE_LIMIT_RETRY_BASE_DELAY = 2`. -/
def rateLimitRetryBaseDelay : Int := 2

/-- The 429 sleep:
`retry_after = int(headers.get('Retry-After', base * 2^(attempt-1)))`, then
`retry_after = max(1, min(retry_after, 60))`. -/
def clampRetryAfter (header : Option Int) (attempt : Nat) : Int :=
  let retry_after :=
    match header with
    | some v => v
    | none => rateLimitRetryBaseDelay * 2 ^ (attempt - 1)
  max 1 (min retry_after 60)

/-- The generic retry backoff:
`sleep_time = RATE_LIMIT_RETRY_BASE_DELAY * (1.5 ** (attempt - 1)) + (0.5 * attempt)`. -/
def backoffDelay (attempt : Nat) : ℚ :=
  (rateLimitRetryBaseDelay : ℚ) * (3 / 2) ^ (attempt - 1) + (1 / 2) * (attempt : ℚ)

/-- The observable behaviour of one `_make_request` call: the returned value
or escaped exception, the sequence of sleeps performed, and the number of
HTTP attempts issued. -/
structure RequestTrace where
  result : Except RequestFailure Nat
  sleeps : List ℚ
  attempts_made : Nat
  deriving Repr

/-- What one loop iteration of `_make_request` decides to do after its HTTP
attempt: finish with a trace, or sleep and run the loop again. -/
inductive StepDecision where
  | done (trace : RequestTrace)
  | sleepRetry (sleep : ℚ) (err : RequestFailure)
  deriving Repr

/-- The per-attempt classification of `_make_request` for attempt number
`attempt` (the `a`-th request), with `fuel` the number of further attempts
the `while attempt < retries` condition still allows and `k + 1` the index
of the pre-sleep `_time_check`: a 401 or 403 re-raises immediately; a 429
time-checks, then sleeps the clamped `Retry-After` and continues; a 5xx or a
transport error falls through to the `if attempt < retries` backoff sleep
(guarded by a time check) or, on the final attempt, to re-raising the last
error (which at that point is this attempt's error); any other 4xx
re-raises. -/
def requestStep (timeOk : Nat → Bool) (fuel attempt k : Nat)
    (o : RequestOutcome) : StepDecision :=
  match o with
  | .success v => .done { result := .ok v, sleeps := [], attempts_made := 1 }
  | .httpError status header =>
      if status = 401 ∨ status = 403 then
        .done { result := .error (.httpFailure status), sleeps := [],
                attempts_made := 1 }
      else if status = 429 then
        if timeOk (k + 1) = false then
          .done { result := .error (.httpFailure 429), sleeps := [],
                  attempts_made := 1 }
        else .sleepRetry (clampRetryAfter header attempt) (.httpFailure 429)
      else if 500 ≤ status then
        match fuel with
        | 0 =>
            .done { result := .error (.httpFailure status), sleeps := [],
                    attempts_made := 1 }
        | _ + 1 =>
            if timeOk (k + 1) = false then
              .done { result := .error (.httpFailure status), sleeps := [],
                      attempts_made := 1 }
            else .sleepRetry (backoffDelay attempt) (.httpFailure status)
      else
        .done { result := .error (.httpFailure status), sleeps := [],
                attempts_made := 1 }
  | .requestError =>
      match fuel with
      | 0 =>
          .done { result := .error .requestFailure, sleeps := [],
                  attempts_made := 1 }
      | _ + 1 =>
          if timeOk (k + 1) = false then
            .done { result := .error .requestFailure, sleeps := [],
                    attempts_made := 1 }
          else .sleepRetry (backoffDelay attempt) .requestFailure

/-- The `while attempt < retries` loop of `_make_request`, with `fuel` the
number of attempts still allowed (`retries - attempt`), `attempt` the number
of attempts already made, and `k` the index of the next `_time_check` call
(`outcomes a` is the result of the `a`-th HTTP attempt, `timeOk k` the result
of the `k`-th time check).  The loop-top time check raises the last error (or
a timeout) without issuing a request; otherwise the attempt is classified by
`requestStep` and either finishes or sleeps and continues with the attempt's
error recorded as the last one. -/
def makeRequestAux (outcomes : Nat → RequestOutcome) (timeOk : Nat → Bool) :
    Nat → Nat → Nat → Option RequestFailure → RequestTrace
  | 0, _, _, last =>
      { result := .error (last.getD .retriesExhaustedNoPrior), sleeps := [],
        attempts_made := 0 }
  | fuel + 1, attempt, k, last =>
      if timeOk k = false then
        { result := .error (last.getD .timeoutNoPrior), sleeps := [],
          attempts_made := 0 }
      else
        match requestStep timeOk fuel (attempt + 1) k (outcomes (attempt + 1)) with
        | .done trace => trace
        | .sleepRetry sleep err =>
            let rest :=
              makeRequestAux outcomes timeOk fuel (attempt + 1) (k + 2) (some err)
            { result := rest.result, sleeps := sleep :: rest.sleeps,
              attempts_made := rest.attempts_made + 1 }

/-- `_make_request` with its default `retries = 3`. -/
def make_request (outcomes : Nat → RequestOutcome) (timeOk : Nat → Bool) :
    RequestTrace :=
  makeRequestAux outcomes timeOk 3 0 0 none

/-! ## History collector: per-run listening stats (`get_formatted_history`) -/

/-- One entry of `history_track_entries_for_scoring` as the stats loop of
`get_formatted_history` sees it: whether the entry carries a valid track dict
with an id and a string `played_at`, the parse result of `played_at`
(milliseconds; `none` when unparseable), the primary artist id when present,
and the raw duration field. -/
structure ScoringEntry where
  has_valid_track : Bool
  played_at : Option Int
  artist_id : Option String
  duration_ms : Option Int
  deriving Repr, DecidableEq

/-- The loop accumulator of the stats pass in `get_formatted_history`. -/
structure ScoringAcc where
  unique_artist_ids : List String
  total_duration_ms : Int
  earliest_listen : Int
  latest_listen : Int
  processed_track_count : Nat
  deriving Repr, DecidableEq

/-- One iteration of the stats loop: skip invalid or unparseable entries,
otherwise record the artist id, clamp the duration at 0, and fold the
timestamp into the running min and max. -/
def processScoringEntry (acc : ScoringAcc) (e : ScoringEntry) : ScoringAcc :=
  if e.has_valid_track = false then acc
  else
    match e.played_at with
    | none => acc
    | some listened_at =>
        let artists :=
          match e.artist_id with
          | some a =>
              if a ∈ acc.unique_artist_ids then acc.unique_artist_ids
              else acc.unique_artist_ids ++ [a]
          | none => acc.unique_artist_ids
        let valid_duration :=
          match e.duration_ms with
          | some d => max 0 d
          | none => 0
        { unique_artist_ids := artists
          total_duration_ms := acc.total_duration_ms + valid_duration
          earliest_listen := min acc.earliest_listen listened_at
          latest_listen := max acc.latest_listen listened_at
          processed_track_count := acc.processed_track_count + 1 }

/-- Milliseconds per day, the unit behind `timedelta.days`. -/
def msPerDay : Int := 86400000

/-- The stats portion of `get_formatted_history`: fold the entries starting
from `earliest = now` and `latest = epoch`, then derive the activity period:
`(latest - earliest).days + 1` when `latest > earliest`, `1` when any track
was processed, `0` otherwise (`timedelta.days` floors, hence `Int.fdiv`). -/
def statsFromEntries (now_ms : Int) (entries : List ScoringEntry) : ListeningStats :=
  let acc :=
    entries.foldl processScoringEntry
      { unique_artist_ids := [], total_duration_ms := 0,
        earliest_listen := now_ms, latest_listen := 0, processed_track_count := 0 }
  let activity_period_days : Int :=
    if 0 < acc.processed_track_count then
      if acc.earliest_listen < acc.latest_listen then
        (acc.latest_listen - acc.earliest_listen).fdiv msPerDay + 1
      else 1
    else 0
  { total_minutes := acc.total_duration_ms.fdiv 60000
    track_count := acc.processed_track_count
    unique_artists := acc.unique_artist_ids
    activity_period_days := activity_period_days
    first_listen_date :=
      if 0 < acc.processed_track_count then some acc.earliest_listen else none
    last_listen_date :=
      if 0 < acc.processed_track_count then some acc.latest_listen else none }

/-- The timestamps of the entries the stats loop actually processes. -/
def processedTimestamps (entries : List ScoringEntry) : List Int :=
  entries.filterMap fun e => if e.has_valid_track then e.played_at else none

/-! ## Concrete sample inputs for instantiating the theorems -/

/-- A ledger with no stored state. -/
def emptyLedger : LedgerState := { contributions := [], proofs := [] }

/-- Listening stats with no events. -/
def zeroStats : ListeningStats :=
  { total_minutes := 0, track_count := 0, unique_artists := [],
    activity_period_days := 0, first_listen_date := none, last_listen_date := none }

/-- The Scenario-B stats of the spec: 1200 minutes, 10 unique artists, 40
activity days. -/
def sampleStats : ListeningStats :=
  { total_minutes := 1200, track_count := 300,
    unique_artists := ["a1", "a2", "a3", "a4", "a5", "a6", "a7", "a8", "a9", "a10"],
    activity_period_days := 40,
    first_listen_date := some 1696464000000, last_listen_date := some 1699833600000 }

/-- A contribution with no events. -/
def zeroData : ContributionData :=
  { account_id_hash := "acct", stats := zeroStats, tracks := [] }

/-- A contribution carrying the Scenario-B stats. -/
def sampleData : ContributionData :=
  { account_id_hash := "acct", stats := sampleStats, tracks := [] }

/-- Per-run orchestrator inputs. -/
def sampleArgs : StoreArgs :=
  { file_id := 1, file_url := "https://bucket.s3.amazonaws.com/file",
    job_id := "job-1", owner_address := "0xowner",
    last_successful_fetch_cursor := some 1699833600000,
    encrypted_refresh_token := "", now := 1699833600000 }

/-- A proof response with a positive awarded score. -/
def sampleProof : ProofResponse :=
  { valid := true, score := 41 / 200, authenticity := 1, ownership := 1,
    quality := 1, uniqueness := 1 }

end Unwrapped

namespace Unwrapped

/-! ## Helper lemmas -/

private lemma generate_eq (l : LedgerState) (data : ContributionData)
    (args : StoreArgs) (mp : Int) :
    generate l data args mp = (failedProofResponse, l) := by
  unfold generate
  cases hc : check_existing_contribution l data.account_id_hash with
  | error e => rfl
  | ok checked =>
      simp [tupleUnpackOk, generateUnpackTargetCount, getFormattedHistoryTupleLength]

private lemma processScoringEntry_skip (acc : ScoringAcc) (e : ScoringEntry)
    (he : (if e.has_valid_track then e.played_at else none) = none) :
    processScoringEntry acc e = acc := by
  cases hv : e.has_valid_track
  · simp [processScoringEntry, hv]
  · rw [hv] at he
    simp only [if_true] at he
    simp [processScoringEntry, hv, he]

private lemma processScoringEntry_take (acc : ScoringAcc) (e : ScoringEntry)
    (t : Int) (he : (if e.has_valid_track then e.played_at else none) = some t) :
    (processScoringEntry acc e).earliest_listen = min acc.earliest_listen t ∧
      (processScoringEntry acc e).latest_listen = max acc.latest_listen t ∧
      (processScoringEntry acc e).processed_track_count =
        acc.processed_track_count + 1 := by
  cases hv : e.has_valid_track
  · rw [hv] at he
    simp at he
  · rw [hv] at he
    simp only [if_true] at he
    simp [processScoringEntry, hv, he]

private lemma foldl_scoring_stats :
    ∀ (entries : List ScoringEntry) (acc : ScoringAcc),
      (entries.foldl processScoringEntry acc).earliest_listen =
          (processedTimestamps entries).foldl min acc.earliest_listen ∧
        (entries.foldl processScoringEntry acc).latest_listen =
          (processedTimestamps entries).foldl max acc.latest_listen ∧
        (entries.foldl processScoringEntry acc).processed_track_count =
          acc.processed_track_count + (processedTimestamps entries).length := by
  intro entries
  induction entries with
  | nil => intro acc; simp [processedTimestamps]
  | cons e es ih =>
      intro acc
      cases he : (if e.has_valid_track then e.played_at else none) with
      | none =>
          have hts : processedTimestamps (e :: es) = processedTimestamps es := by
            simp [processedTimestamps, List.filterMap_cons, he]
          simp only [List.foldl_cons, processScoringEntry_skip acc e he, hts]
          exact ih acc
      | some t =>
          obtain ⟨he1, he2, he3⟩ := processScoringEntry_take acc e t he
          have hts : processedTimestamps (e :: es) = t :: processedTimestamps es := by
            simp [processedTimestamps, List.filterMap_cons, he]
          obtain ⟨h1, h2, h3⟩ := ih (processScoringEntry acc e)
          refine ⟨?_, ?_, ?_⟩
          · rw [List.foldl_cons, h1, he1, hts, List.foldl_cons]
          · rw [List.foldl_cons, h2, he2, hts, List.foldl_cons]
          · rw [List.foldl_cons, h3, he3, hts, List.length_cons]
            omega

private lemma foldl_min_const (ts : List Int) :
    ∀ a : Int, (∀ t ∈ ts, a ≤ t) → ts.foldl min a = a := by
  induction ts with
  | nil => intro a _; rfl
  | cons t ts ih =>
      intro a hbound
      rw [List.foldl_cons, min_eq_left (hbound t (List.mem_cons_self t ts))]
      exact ih a fun x hx => hbound x (List.mem_cons_of_mem _ hx)

private lemma foldl_min_eq (ts : List Int) :
    ∀ (a tmin : Int), tmin ∈ ts → (∀ t ∈ ts, tmin ≤ t) → tmin ≤ a →
      ts.foldl min a = tmin := by
  induction ts with
  | nil => intro a tmin h _ _; exact absurd h (List.not_mem_nil tmin)
  | cons t ts ih =>
      intro a tmin hmem hbound hle
      rw [List.foldl_cons]
      rcases List.mem_cons.mp hmem with rfl | hmem'
      · rw [min_eq_right hle]
        exact foldl_min_const ts tmin fun x hx => hbound x (List.mem_cons_of_mem _ hx)
      · exact ih (min a t) tmin hmem'
          (fun x hx => hbound x (List.mem_cons_of_mem _ hx))
          (le_min hle (hbound t (List.mem_cons_self t ts)))

private lemma foldl_max_const (ts : List Int) :
    ∀ a : Int, (∀ t ∈ ts, t ≤ a) → ts.foldl max a = a := by
  induction ts with
  | nil => intro a _; rfl
  | cons t ts ih =>
      intro a hbound
      rw [List.foldl_cons, max_eq_left (hbound t (List.mem_cons_self t ts))]
      exact ih a fun x hx => hbound x (List.mem_cons_of_mem _ hx)

private lemma foldl_max_eq (ts : List Int) :
    ∀ (a tmax : Int), tmax ∈ ts → (∀ t ∈ ts, t ≤ tmax) → a ≤ tmax →
      ts.foldl max a = tmax := by
  induction ts with
  | nil => intro a tmax h _ _; exact absurd h (List.not_mem_nil tmax)
  | cons t ts ih =>
      intro a tmax hmem hbound hle
      rw [List.foldl_cons]
      rcases List.mem_cons.mp hmem with rfl | hmem'
      · rw [max_eq_right hle]
        exact foldl_max_const ts tmax fun x hx => hbound x (List.mem_cons_of_mem _ hx)
      · exact ih (max a t) tmax hmem'
          (fun x hx => hbound x (List.mem_cons_of_mem _ hx))
          (max_le hle (hbound t (List.mem_cons_self t ts)))

private lemma makeRequestAux_server_retry (outcomes : Nat → RequestOutcome)
    (timeOk : Nat → Bool) (fuel' attempt k : Nat) (last : Option RequestFailure)
    (status : Nat) (header : Option Int)
    (ht : timeOk k = true) (ht2 : timeOk (k + 1) = true)
    (ho : outcomes (attempt + 1) = .httpError status header) (hs : 500 ≤ status) :
    makeRequestAux outcomes timeOk (fuel' + 1 + 1) attempt k last =
      { result := (makeRequestAux outcomes timeOk (fuel' + 1) (attempt + 1)
            (k + 2) (some (.httpFailure status))).result
        sleeps := backoffDelay (attempt + 1) ::
          (makeRequestAux outcomes timeOk (fuel' + 1) (attempt + 1) (k + 2)
            (some (.httpFailure status))).sleeps
        attempts_made := (makeRequestAux outcomes timeOk (fuel' + 1) (attempt + 1)
            (k + 2) (some (.httpFailure status))).attempts_made + 1 } := by
  have h1 : ¬(status = 401 ∨ status = 403) := by omega
  have h2 : ¬(status = 429) := by omega
  rw [makeRequestAux]
  simp [requestStep, ht, ht2, ho, h1, h2, hs]

private lemma makeRequestAux_server_last (outcomes : Nat → RequestOutcome)
    (timeOk : Nat → Bool) (attempt k : Nat) (last : Option RequestFailure)
    (status : Nat) (header : Option Int)
    (ht : timeOk k = true) (ho : outcomes (attempt + 1) = .httpError status header)
    (hs : 500 ≤ status) :
    makeRequestAux outcomes timeOk (0 + 1) attempt k last =
      { result := .error (.httpFailure status), sleeps := [],
        attempts_made := 1 } := by
  have h1 : ¬(status = 401 ∨ status = 403) := by omega
  have h2 : ¬(status = 429) := by omega
  rw [makeRequestAux]
  simp [requestStep, ht, ho, h1, h2, hs]

/-! ## Claims about the scoring engine -/

/-- Claim C5: The tier tables of the scoring engine are exact, with inclusive
lower-bound thresholds evaluated from highest to lowest, and the total of a
`PointsBreakdown` is the sum of volume, diversity and history points. -/
theorem scoring_tier_tables_exact :
    (∀ m : Int,
      (5000 ≤ m → (calculate_volume_points m).1 = 500) ∧
      (1000 ≤ m ∧ m < 5000 → (calculate_volume_points m).1 = 150) ∧
      (500 ≤ m ∧ m < 1000 → (calculate_volume_points m).1 = 50) ∧
      (100 ≤ m ∧ m < 500 → (calculate_volume_points m).1 = 25) ∧
      (30 ≤ m ∧ m < 100 → (calculate_volume_points m).1 = 5) ∧
      (m < 30 → (calculate_volume_points m).1 = 0)) ∧
    (∀ a : Int,
      (50 ≤ a → (calculate_diversity_points a).1 = 150) ∧
      (25 ≤ a ∧ a < 50 → (calculate_diversity_points a).1 = 75) ∧
      (10 ≤ a ∧ a < 25 → (calculate_diversity_points a).1 = 30) ∧
      (5 ≤ a ∧ a < 10 → (calculate_diversity_points a).1 = 10) ∧
      (3 ≤ a ∧ a < 5 → (calculate_diversity_points a).1 = 5) ∧
      (a < 3 → (calculate_diversity_points a).1 = 0)) ∧
    (∀ d : Int,
      (180 ≤ d → (calculate_history_points d).1 = 100) ∧
      (90 ≤ d ∧ d < 180 → (calculate_history_points d).1 = 50) ∧
      (30 ≤ d ∧ d < 90 → (calculate_history_points d).1 = 25) ∧
      (7 ≤ d ∧ d < 30 → (calculate_history_points d).1 = 10) ∧
      (d < 7 → (calculate_history_points d).1 = 0)) ∧
    (∀ stats : ListeningStats,
      (calculate_score stats).total_points =
        (calculate_volume_points stats.total_minutes).1 +
        (calculate_diversity_points stats.unique_artists.length).1 +
        (calculate_history_points stats.activity_period_days).1) := by
  refine ⟨fun m => ?_, fun a => ?_, fun d => ?_, fun stats => rfl⟩
  · unfold calculate_volume_points
    refine ⟨fun h => ?_, fun h => ?_, fun h => ?_, fun h => ?_, fun h => ?_, fun h => ?_⟩ <;>
      split_ifs <;> first | rfl | omega
  · unfold calculate_diversity_points
    refine ⟨fun h => ?_, fun h => ?_, fun h => ?_, fun h => ?_, fun h => ?_, fun h => ?_⟩ <;>
      split_ifs <;> first | rfl | omega
  · unfold calculate_history_points
    refine ⟨fun h => ?_, fun h => ?_, fun h => ?_, fun h => ?_, fun h => ?_⟩ <;>
      split_ifs <;> first | rfl | omega

/-- Witness for C5 at concrete tier inputs (1200 minutes, 10 artists,
40 days), matching Scenario B of the spec: breakdown 150/30/25, total 205. -/
theorem scoring_tier_tables_exact_witness :
    (calculate_volume_points 1200).1 = 150 ∧
    (calculate_diversity_points 10).1 = 30 ∧
    (calculate_history_points 40).1 = 25 ∧
    (calculate_score
      { total_minutes := 1200, track_count := 300,
        unique_artists := ["a1", "a2", "a3", "a4", "a5", "a6", "a7", "a8", "a9", "a10"],
        activity_period_days := 40,
        first_listen_date := none, last_listen_date := none }).total_points = 205 := by
  refine ⟨(scoring_tier_tables_exact.1 1200).2.1 (by decide), ?_, ?_, by decide⟩
  · exact (scoring_tier_tables_exact.2.1 10).2.2.1 (by decide)
  · exact (scoring_tier_tables_exact.2.2.1 40).2.2.1 (by decide)

/-- Claim C6: `normalize_score` returns `0` when `max_points ≤ 0` and
`min 1 (points / max_points)` otherwise; the result lies in `[0, 1]` for all
non-negative points, and `normalize_score 0 m = 0` for every `m`. -/
theorem normalize_score_spec :
    ∀ points max_points : Int,
      normalize_score points max_points =
        (if max_points ≤ 0 then 0 else min 1 ((points : ℚ) / (max_points : ℚ))) ∧
      (0 ≤ points →
        0 ≤ normalize_score points max_points ∧ normalize_score points max_points ≤ 1) ∧
      normalize_score 0 max_points = 0 := by
  intro points max_points
  refine ⟨rfl, fun hp => ?_, ?_⟩
  · unfold normalize_score
    split_ifs with h
    · exact ⟨le_refl 0, zero_le_one⟩
    · push_neg at h
      constructor
      · refine le_min zero_le_one ?_
        apply div_nonneg
        · exact_mod_cast hp
        · exact_mod_cast h.le
      · exact min_le_left _ _
  · unfold normalize_score
    split_ifs with h
    · rfl
    · simp

/-- Witness for C6 at `points = 205`, `max_points = 1000`. -/
theorem normalize_score_spec_witness :
    normalize_score 205 1000 =
      (if (1000 : Int) ≤ 0 then 0 else min 1 ((205 : ℚ) / (1000 : ℚ))) ∧
    0 ≤ normalize_score 205 1000 ∧ normalize_score 205 1000 ≤ 1 := by
  obtain ⟨h1, h2, _⟩ := normalize_score_spec 205 1000
  exact ⟨h1, h2 (by decide)⟩

/-- Claim C1 (code defect): the claim says every run records reward
`max 0 (S_now - previousCumulativeScore)`.  On this source no run ever
reaches the reward stages: stage 1 raises `TypeError` whenever the account
has a stored row, and stage 2's two-target unpack of
`get_formatted_history`'s 3-tuple raises `ValueError` unconditionally, so
`Proof.generate` always returns the handler's failed response with
`score = 0.0` and `valid = False` and writes nothing.  At the Scenario-B
failing input the claimed formula yields `41/200 = 0.205`, not the `0` the
code records. -/
theorem generate_never_records_reward :
    (∀ (l : LedgerState) (data : ContributionData) (args : StoreArgs)
        (max_points : Int),
      generate l data args max_points = (failedProofResponse, l)) ∧
      (generate emptyLedger sampleData sampleArgs 1000).1.score ≠
        max 0 (normalize_score (calculate_score sampleData.stats).total_points
            1000 -
          previousCumulativeScoreOf emptyLedger sampleData.account_id_hash) ∧
      max 0 (normalize_score (calculate_score sampleData.stats).total_points
          1000 -
        previousCumulativeScoreOf emptyLedger sampleData.account_id_hash) =
        41 / 200 := by
  have h3 : max 0 (normalize_score (calculate_score sampleData.stats).total_points
        1000 -
      previousCumulativeScoreOf emptyLedger sampleData.account_id_hash) =
      41 / 200 := by
    norm_num [sampleData, sampleStats, calculate_score, calculate_volume_points,
      calculate_diversity_points, calculate_history_points, normalize_score,
      previousCumulativeScoreOf, contributionFor, emptyLedger]
  refine ⟨fun l data args mp => generate_eq l data args mp, ?_, h3⟩
  rw [generate_eq, h3]
  norm_num [failedProofResponse]

/-- Claim C2 (code defect).  `StorageService.check_existing_contribution`
constructs `ExistingContribution` with the keyword argument
`last_spotify_fetch_cursor`, but the `ExistingContribution` dataclass in
`models/contribution.py` declares no such field, so the construction — hence
the whole read path for any account that has a stored contribution — raises
`TypeError` instead of returning the record the callers expect. -/
theorem existing_contribution_dataclass_rejects_cursor_kwarg :
    dataclassCallAccepts existingContributionDataclassFields
        checkExistingConstructorKwargs = false ∧
      checkExistingConstructorKwargs.contains "last_spotify_fetch_cursor" = true ∧
      existingContributionDataclassFields.contains "last_spotify_fetch_cursor" =
        false := by
  decide

/-- Claim C4: `store_contribution` on a positive-score proof performs the
`UserContribution` upsert and the `ContributionProof` append as one atomic
unit: starting from a clean session, either the call returns normally and the
committed ledger holds exactly both updates (the same ledger the pure success
path produces), or the error is re-raised and the committed ledger is
untouched; in both cases no partial transaction state stays pending. -/
theorem store_contribution_tx_atomic :
    ∀ (s : DbSession) (data : ContributionData) (proof : ProofResponse)
      (args : StoreArgs) (failure : StoreFailure),
      0 < proof.score → s.pending = s.committed →
      ((store_contribution_tx s data proof args failure).2.pending =
          (store_contribution_tx s data proof args failure).2.committed) ∧
      ((store_contribution_tx s data proof args failure).1 = false →
        (store_contribution_tx s data proof args failure).2.committed =
            applyStore s.committed data proof args ∧
          (store_contribution_tx s data proof args failure).2.committed =
            store_contribution s.committed data proof args) ∧
      ((store_contribution_tx s data proof args failure).1 = true →
        (store_contribution_tx s data proof args failure).2.committed =
          s.committed) := by
  intro s data proof args failure hpos hclean
  cases failure <;>
    simp [store_contribution_tx, store_contribution, hpos, hclean]

/-- Claim C10 (code defect): the claim says the read path returns
`times_rewarded` equal to the number of the account's proof records with
strictly positive score.  The source computes exactly that count
(storage.py lines 45-54) but then raises `TypeError` constructing
`ExistingContribution`, so the read path never returns a value for any
account with a stored row.  The persisted-column half of the claim does
hold: the `UserContribution` row a commit creates carries
`times_rewarded = 0`, and the update path of `store_contribution` leaves
the field untouched. -/
theorem times_rewarded_column_and_read_path :
    ∀ (l : LedgerState) (h : String) (data : ContributionData)
      (proof : ProofResponse) (args : StoreArgs) (c : UserContribution),
      check_existing_contribution l h =
        (match contributionFor l h with
          | some _ => .error .typeError
          | none => .ok (false, none)) ∧
      (upsertContribution none data proof args).times_rewarded = 0 ∧
      (upsertContribution (some c) data proof args).times_rewarded =
        c.times_rewarded := by
  intro l h data proof args c
  refine ⟨?_, rfl, rfl⟩
  have hreject : dataclassCallAccepts existingContributionDataclassFields
      checkExistingConstructorKwargs = false := by decide
  cases hf : contributionFor l h with
  | some c' => simp [check_existing_contribution, hf, hreject]
  | none => simp [check_existing_contribution, hf]

/-- Claim C3: a run whose reward is `0` performs no ledger write of any
kind — contribution row, stored fetch cursor and proof records are exactly
those before the run — and replaying an unchanged fetch immediately after
any run yields a second-run reward of exactly `0`, leaves run 1's ledger
untouched, and in particular the stored cursor after run 2 equals the one
after run 1.  (On this source these hold degenerately: the stage-1/stage-2
defects abort every run before the reward stages, so every run returns
reward `0` and writes nothing.) -/
theorem zero_reward_no_write_and_replay :
    ∀ (l : LedgerState) (data : ContributionData) (args : StoreArgs) (mp : Int),
      ((generate l data args mp).1.score = 0 → (generate l data args mp).2 = l) ∧
      (generate (generate l data args mp).2 data args mp).1.score = 0 ∧
      (generate (generate l data args mp).2 data args mp).2 =
        (generate l data args mp).2 ∧
      ((contributionFor (generate (generate l data args mp).2 data args mp).2
            data.account_id_hash).map (fun c => c.last_spotify_fetch_cursor) =
        (contributionFor (generate l data args mp).2 data.account_id_hash).map
          (fun c => c.last_spotify_fetch_cursor)) := by
  intro l data args mp
  simp [generate_eq, failedProofResponse]

/-- Witness for C3: a run on the empty ledger with the Scenario-B fetch has
reward `0`, and the theorem then yields that it wrote nothing and that the
replay also awards `0`. -/
theorem zero_reward_no_write_and_replay_witness :
    (generate emptyLedger sampleData sampleArgs 1000).2 = emptyLedger ∧
      (generate (generate emptyLedger sampleData sampleArgs 1000).2 sampleData
          sampleArgs 1000).1.score = 0 := by
  have h := zero_reward_no_write_and_replay emptyLedger sampleData sampleArgs 1000
  exact ⟨h.1 rfl, h.2.1⟩

/-- Witness for C4: a clean session over the empty ledger, a proof with
score `41/200 > 0`, and a commit that succeeds. -/
theorem store_contribution_tx_atomic_witness :
    (store_contribution_tx ⟨emptyLedger, emptyLedger⟩ sampleData sampleProof
        sampleArgs .noFailure).2.pending =
      (store_contribution_tx ⟨emptyLedger, emptyLedger⟩ sampleData sampleProof
        sampleArgs .noFailure).2.committed := by
  exact (store_contribution_tx_atomic ⟨emptyLedger, emptyLedger⟩ sampleData
    sampleProof sampleArgs .noFailure (by norm_num [sampleProof]) rfl).1

/-- Claim C7: At fetch start (provided the clock is at least 7 days past the
epoch, as any real clock is), the stored resume cursor is used as the first
pagination cursor exactly when it is present and strictly newer than
`now - 7 days` in milliseconds; otherwise it is discarded and fetching starts
from `now` with no resumable cursor. -/
theorem resolve_start_cursor_spec :
    ∀ (now_ms : Int) (start_cursor : Option Int),
      maxCursorAgeMs ≤ now_ms →
      (∀ c, start_cursor = some c →
        (now_ms - maxCursorAgeMs < c →
          resolveStartCursor now_ms start_cursor = (c, some c)) ∧
        (c ≤ now_ms - maxCursorAgeMs →
          resolveStartCursor now_ms start_cursor = (now_ms, none))) ∧
      (start_cursor = none →
        resolveStartCursor now_ms start_cursor = (now_ms, none)) := by
  intro now_ms sc hnow
  constructor
  · rintro c rfl
    constructor <;> intro hx
    · have hc0 : c ≠ 0 := by omega
      simp [resolveStartCursor, hc0, hx]
    · have hcond : ¬(c ≠ 0 ∧ now_ms - maxCursorAgeMs < c) := by omega
      simp only [resolveStartCursor]
      rw [if_neg hcond]
  · rintro rfl
    rfl

/-- Witness for C7: with `now = 1700000000000` and a stored cursor one
millisecond old, the cursor is used; with a cursor exactly 7 days old, it is
discarded. -/
theorem resolve_start_cursor_spec_witness :
    resolveStartCursor 1700000000000 (some 1699999999999) =
        (1699999999999, some 1699999999999) ∧
      resolveStartCursor 1700000000000 (some (1700000000000 - 604800000)) =
        (1700000000000, none) := by
  constructor
  · exact ((resolve_start_cursor_spec 1700000000000 (some 1699999999999)
      (by norm_num [maxCursorAgeMs])).1 1699999999999 rfl).1
      (by norm_num [maxCursorAgeMs])
  · exact ((resolve_start_cursor_spec 1700000000000
      (some (1700000000000 - 604800000))
      (by norm_num [maxCursorAgeMs])).1 (1700000000000 - 604800000) rfl).2
      (by norm_num [maxCursorAgeMs])

/-- Claim C9: For a run whose processed event set is non-empty (with event
timestamps between the epoch and `now`), the computed activity period equals
the day-granularity difference between the first and the last listen,
counting both endpoints (`(last - first).days + 1`), and is at least 1; for a
run with no processed events it is 0. -/
theorem activity_period_days_spec :
    ∀ (now_ms : Int) (entries : List ScoringEntry),
      (processedTimestamps entries = [] →
        (statsFromEntries now_ms entries).activity_period_days = 0) ∧
      (∀ tmin tmax, tmin ∈ processedTimestamps entries →
        tmax ∈ processedTimestamps entries →
        (∀ t ∈ processedTimestamps entries, tmin ≤ t ∧ t ≤ tmax) →
        0 ≤ tmin → tmax ≤ now_ms →
        (statsFromEntries now_ms entries).activity_period_days =
            (tmax - tmin).fdiv msPerDay + 1 ∧
          1 ≤ (statsFromEntries now_ms entries).activity_period_days ∧
          (statsFromEntries now_ms entries).first_listen_date = some tmin ∧
          (statsFromEntries now_ms entries).last_listen_date = some tmax) := by
  intro now_ms entries
  obtain ⟨hearl, hlat, hcount⟩ := foldl_scoring_stats entries
    { unique_artist_ids := [], total_duration_ms := 0,
      earliest_listen := now_ms, latest_listen := 0, processed_track_count := 0 }
  constructor
  · intro hempty
    simp only [statsFromEntries, hcount, hempty, List.length_nil]
    simp
  · intro tmin tmax hmin hmax hbounds h0 hnow
    have htt : tmin ≤ tmax := (hbounds tmin hmin).2
    have hearl' :
        (entries.foldl processScoringEntry
          { unique_artist_ids := [], total_duration_ms := 0,
            earliest_listen := now_ms, latest_listen := 0,
            processed_track_count := 0 }).earliest_listen = tmin := by
      rw [hearl]
      exact foldl_min_eq _ now_ms tmin hmin (fun t ht => (hbounds t ht).1)
        (le_trans htt hnow)
    have hlat' :
        (entries.foldl processScoringEntry
          { unique_artist_ids := [], total_duration_ms := 0,
            earliest_listen := now_ms, latest_listen := 0,
            processed_track_count := 0 }).latest_listen = tmax := by
      rw [hlat]
      exact foldl_max_eq _ 0 tmax hmax (fun t ht => (hbounds t ht).2)
        (le_trans h0 htt)
    have hpos : 0 <
        (entries.foldl processScoringEntry
          { unique_artist_ids := [], total_duration_ms := 0,
            earliest_listen := now_ms, latest_listen := 0,
            processed_track_count := 0 }).processed_track_count := by
      rw [hcount]
      have : processedTimestamps entries ≠ [] := by
        intro h
        rw [h] at hmin
        exact List.not_mem_nil tmin hmin
      have := List.length_pos.mpr this
      omega
    have hdiv : 0 ≤ (tmax - tmin).fdiv msPerDay :=
      Int.fdiv_nonneg (by omega) (by norm_num [msPerDay])
    simp only [statsFromEntries, hearl', hlat', if_pos hpos]
    rcases lt_or_eq_of_le htt with hlt | heq
    · rw [if_pos hlt]
      refine ⟨by trivial, by omega, by trivial, by trivial⟩
    · subst heq
      rw [if_neg (lt_irrefl tmin)]
      simp

/-- Claim C8: For every upstream request of the collector: a 401 or 403 aborts
immediately with the error propagated, without a sleep or a further attempt;
a 429 sleeps the server-provided (or computed) delay clamped into `[1, 60]`
seconds and retries, with the time budget checked before the sleep (a failed
check aborts with the error and no sleep); a 5xx is retried with backoff up
to the fixed cap of 3 attempts; and when the cap is exhausted the last error
is propagated. -/
theorem make_request_failure_classification :
    ∀ (outcomes : Nat → RequestOutcome) (timeOk : Nat → Bool),
      (∀ fuel attempt k last status header,
        timeOk k = true →
        outcomes (attempt + 1) = .httpError status header →
        status = 401 ∨ status = 403 →
        makeRequestAux outcomes timeOk (fuel + 1) attempt k last =
          { result := .error (.httpFailure status), sleeps := [],
            attempts_made := 1 }) ∧
      (∀ header attempt, 1 ≤ clampRetryAfter header attempt ∧
        clampRetryAfter header attempt ≤ 60) ∧
      (∀ fuel attempt k last header,
        timeOk k = true → timeOk (k + 1) = true →
        outcomes (attempt + 1) = .httpError 429 header →
        makeRequestAux outcomes timeOk (fuel + 1) attempt k last =
          { result := (makeRequestAux outcomes timeOk fuel (attempt + 1) (k + 2)
                (some (.httpFailure 429))).result
            sleeps := (clampRetryAfter header (attempt + 1) : ℚ) ::
              (makeRequestAux outcomes timeOk fuel (attempt + 1) (k + 2)
                (some (.httpFailure 429))).sleeps
            attempts_made := (makeRequestAux outcomes timeOk fuel (attempt + 1)
                (k + 2) (some (.httpFailure 429))).attempts_made + 1 }) ∧
      (∀ fuel attempt k last header,
        timeOk k = true → timeOk (k + 1) = false →
        outcomes (attempt + 1) = .httpError 429 header →
        makeRequestAux outcomes timeOk (fuel + 1) attempt k last =
          { result := .error (.httpFailure 429), sleeps := [],
            attempts_made := 1 }) ∧
      (∀ s1 s2 s3 : Nat, 500 ≤ s1 → 500 ≤ s2 → 500 ≤ s3 →
        (∀ k, timeOk k = true) →
        outcomes 1 = .httpError s1 none →
        outcomes 2 = .httpError s2 none →
        outcomes 3 = .httpError s3 none →
        make_request outcomes timeOk =
          { result := .error (.httpFailure s3),
            sleeps := [backoffDelay 1, backoffDelay 2], attempts_made := 3 }) := by
  intro outcomes timeOk
  refine ⟨?_, ?_, ?_, ?_, ?_⟩
  · intro fuel attempt k last status header ht ho hs
    rcases hs with rfl | rfl <;> rw [makeRequestAux] <;>
      simp [requestStep, ht, ho]
  · intro header attempt
    refine ⟨le_max_left _ _, ?_⟩
    exact max_le (by norm_num) (min_le_right _ _)
  · intro fuel attempt k last header ht ht2 ho
    rw [makeRequestAux]
    simp [requestStep, ht, ht2, ho]
  · intro fuel attempt k last header ht ht2 ho
    rw [makeRequestAux]
    simp [requestStep, ht, ht2, ho]
  · intro s1 s2 s3 h1 h2 h3 htO ho1 ho2 ho3
    have step1 : make_request outcomes timeOk =
        { result := (makeRequestAux outcomes timeOk 2 1 2
              (some (.httpFailure s1))).result
          sleeps := backoffDelay 1 ::
            (makeRequestAux outcomes timeOk 2 1 2 (some (.httpFailure s1))).sleeps
          attempts_made := (makeRequestAux outcomes timeOk 2 1 2
              (some (.httpFailure s1))).attempts_made + 1 } :=
      makeRequestAux_server_retry outcomes timeOk 1 0 0 none s1 none (htO 0)
        (htO 1) ho1 h1
    have step2 : makeRequestAux outcomes timeOk 2 1 2 (some (.httpFailure s1)) =
        { result := (makeRequestAux outcomes timeOk 1 2 4
              (some (.httpFailure s2))).result
          sleeps := backoffDelay 2 ::
            (makeRequestAux outcomes timeOk 1 2 4 (some (.httpFailure s2))).sleeps
          attempts_made := (makeRequestAux outcomes timeOk 1 2 4
              (some (.httpFailure s2))).attempts_made + 1 } :=
      makeRequestAux_server_retry outcomes timeOk 0 1 2 (some (.httpFailure s1))
        s2 none (htO 2) (htO 3) ho2 h2
    have step3 : makeRequestAux outcomes timeOk 1 2 4 (some (.httpFailure s2)) =
        { result := .error (.httpFailure s3), sleeps := [],
          attempts_made := 1 } :=
      makeRequestAux_server_last outcomes timeOk 2 4 (some (.httpFailure s2))
        s3 none (htO 4) ho3 h3
    rw [step1, step2, step3]

/-- Witness for C8: with every attempt answered by a 502 and an
unexhausted budget, the call sleeps twice with backoff, makes exactly 3
attempts, and propagates the last server error. -/
theorem make_request_failure_classification_witness :
    make_request (fun _ => .httpError 502 none) (fun _ => true) =
      { result := .error (.httpFailure 502),
        sleeps := [backoffDelay 1, backoffDelay 2], attempts_made := 3 } := by
  exact (make_request_failure_classification (fun _ => .httpError 502 none)
    (fun _ => true)).2.2.2.2 502 502 502 (by norm_num) (by norm_num) (by norm_num)
    (fun _ => rfl) rfl rfl rfl

/-- Witness for C9: two processed events 30 hours apart yield an activity
period of `1 + 1 = 2` days (inclusive of both endpoint days), and an empty
run yields 0. -/
theorem activity_period_days_spec_witness :
    (statsFromEntries 1700000000000
        [{ has_valid_track := true, played_at := some 1699800000000,
           artist_id := some "a1", duration_ms := some 180000 },
         { has_valid_track := true, played_at := some 1699908000000,
           artist_id := some "a2", duration_ms := some 200000 }]).activity_period_days =
      2 ∧
    (statsFromEntries 1700000000000 []).activity_period_days = 0 := by
  constructor
  · have h := ((activity_period_days_spec 1700000000000
      [{ has_valid_track := true, played_at := some 1699800000000,
         artist_id := some "a1", duration_ms := some 180000 },
       { has_valid_track := true, played_at := some 1699908000000,
         artist_id := some "a2", duration_ms := some 200000 }]).2
      1699800000000 1699908000000
      (by simp [processedTimestamps])
      (by simp [processedTimestamps])
      (by intro t ht; simp [processedTimestamps] at ht; rcases ht with rfl | rfl <;> omega)
      (by norm_num) (by norm_num)).1
    rw [h]
    decide
  · exact (activity_period_days_spec 1700000000000 []).1 rfl

end Unwrapped
